import Mathlib

/-!
Verification development for the ballistic feature-extraction pipeline
(`py_services/feature_extractor.py`).  The Python pipeline is shallowly
embedded: pure numeric code becomes Lean functions over `ℚ` (exact
arithmetic in place of IEEE floats), the OpenCV / numpy / rawpy primitives
the code calls become fields of a `CVOps` record over which the theorems
quantify, fallible calls return `Except`, and the transcendental direction
computation of the striation stage is embedded over `ℝ`.
-/

set_option autoImplicit false

namespace Ballistics

/-- A raster image: height, width and a pixel accessor (row, column).
Only the first `h × w` entries of `pix` are meaningful. -/
structure Image where
  h : ℕ
  w : ℕ
  pix : ℕ → ℕ → ℕ

/-- A contour as returned by `cv2.findContours`: a list of integer points. -/
abbrev Contour := List (ℤ × ℤ)

/-- The spatial-moment record produced by `cv2.moments` (abstract payload). -/
abbrev Moments := List ℚ

/-- A circle `(x, y, r)` as produced by `np.round(...).astype(int)` applied to
the output of `cv2.HoughCircles` (line 62 of the source). -/
abbrev Circle := ℤ × ℤ × ℤ

/-- A line segment `(x1, y1, x2, y2)` as produced by `cv2.HoughLinesP`. -/
abbrev Segment := ℤ × ℤ × ℤ × ℤ

/-- `np.sign` on exact rationals. -/
def qsign (x : ℚ) : ℚ :=
  if 0 < x then 1 else if x < 0 then -1 else 0

/-- Python `int()` applied to a nonnegative rational (truncation = floor). -/
def qfloorNat (x : ℚ) : ℕ :=
  x.floor.toNat

/-- Arithmetic mean of a list, `np.mean` (division by zero yields 0, which is
never exercised: the source guards every mean by a nonemptiness test). -/
def meanQ (l : List ℚ) : ℚ :=
  l.sum / l.length

/-- Population variance of a list, `np.var`. -/
def varianceQ (l : List ℚ) : ℚ :=
  (l.map (fun x => (x - meanQ l) ^ 2)).sum / l.length

/-- The foreign primitives invoked by the pipeline (OpenCV, numpy fused
blocks, rawpy, PIL).  The theorems quantify over any such collection; the
two Hough searches may fail, which models an exception escaping the
corresponding `cv2` call inside a detector `try` block. -/
structure CVOps where
  imdecode : List ℕ → Option Image
  rawpyDecode : List ℕ → Option Image
  imread : List ℕ → Option Image
  pilDecode : List ℕ → Option Image
  rawpyFile : List ℕ → Option Image
  imencodePNG : Image → List ℕ
  resize : Image → ℕ → ℕ → Image
  cvtColor : Image → Image
  gaussianBlur : Image → Image
  adaptiveThreshold : Image → Image
  findContours : Image → List Contour
  contourArea : Contour → ℚ
  arcLength : Contour → ℚ
  drawMask : Image → Contour → Image
  bitwiseAnd : Image → Image → Image
  moments : Image → Moments
  huMoments : Moments → Fin 7 → ℚ
  houghCircles : Image → Except Unit (Option (List Circle))
  circleMeanIntensity : Image → Circle → ℚ
  medianBlur : Image → Image
  dominantDirections : Image → List ℚ
  canny : Image → Image
  houghLinesP : Image → Except Unit (Option (List Segment))
  segLength : Segment → ℚ
  segAngle : Segment → ℚ
  log10 : ℚ → ℚ

/-- Result record of `detect_firing_pin_marks` (lines 54-59). -/
structure FiringPinFeatures where
  num_circular_marks : ℕ
  avg_mark_radius : ℚ
  mark_positions : List (ℚ × ℚ)
  mark_intensities : List ℚ
  deriving DecidableEq

/-- Result record of `detect_striation_patterns` (lines 150-156). -/
structure StriationFeatures where
  num_striation_lines : ℕ
  dominant_directions : List ℚ
  avg_line_length : ℚ
  striation_density : ℚ
  parallelism_score : ℚ
  deriving DecidableEq

/-- The all-zero record returned by the `except` handler of
`detect_firing_pin_marks` (lines 93-98). -/
def zeroFiringPin : FiringPinFeatures :=
  { num_circular_marks := 0
    avg_mark_radius := 0
    mark_positions := []
    mark_intensities := [] }

/-- The all-zero record returned by the `except` handler of
`detect_striation_patterns` (lines 185-191). -/
def zeroStriation : StriationFeatures :=
  { num_striation_lines := 0
    dominant_directions := []
    avg_line_length := 0
    striation_density := 0
    parallelism_score := 0 }

/-- Downscale factor of the firing-pin detector (lines 31-37): below the
2000 px threshold the raster is used as is (factor 1). -/
def fpScale (img : Image) : ℚ :=
  if 2000 < img.h ∨ 2000 < img.w then
    min ((2000 : ℚ) / img.h) ((2000 : ℚ) / img.w)
  else 1

/-- The raster the firing-pin detector actually searches (lines 31-37):
resized to `(int(w*scale), int(h*scale))` when a dimension exceeds 2000. -/
def fpResized (ops : CVOps) (img : Image) : Image :=
  if 2000 < img.h ∨ 2000 < img.w then
    ops.resize img (qfloorNat (img.w * fpScale img)) (qfloorNat (img.h * fpScale img))
  else img

/-- Body of the `try` block of `detect_firing_pin_marks` (lines 29-89):
blur, Hough circle search, then per-circle rescaling of positions and radii
by `1 / scale_factor` and mean intensity on the downscaled raster. -/
def detect_firing_pin_marks_body (ops : CVOps) (img : Image) :
    Except Unit FiringPinFeatures :=
  let s := fpScale img
  let g := fpResized ops img
  let blurred := ops.gaussianBlur g
  (ops.houghCircles blurred).map (fun circlesOpt =>
    match circlesOpt with
    | none => zeroFiringPin
    | some circles =>
      let radii := circles.map (fun c => (c.2.2 : ℚ) / s)
      let positions := circles.map (fun c => ((c.1 : ℚ) / s, (c.2.1 : ℚ) / s))
      let intensities := circles.map (fun c => ops.circleMeanIntensity g c)
      { num_circular_marks := circles.length
        avg_mark_radius := if radii.isEmpty then 0 else meanQ radii
        mark_positions := positions
        mark_intensities := intensities })

/-- `detect_firing_pin_marks` (lines 26-98): the `try`/`except` converts any
internal failure into the all-zero record. -/
def detect_firing_pin_marks (ops : CVOps) (img : Image) : FiringPinFeatures :=
  match detect_firing_pin_marks_body ops img with
  | .ok r => r
  | .error _ => zeroFiringPin

/-- Downscale factor of the striation detector (lines 105-111), threshold
1500 px. -/
def stScale (img : Image) : ℚ :=
  if 1500 < img.h ∨ 1500 < img.w then
    min ((1500 : ℚ) / img.h) ((1500 : ℚ) / img.w)
  else 1

/-- The raster the striation detector works on (lines 105-111). -/
def stResized (ops : CVOps) (img : Image) : Image :=
  if 1500 < img.h ∨ 1500 < img.w then
    ops.resize img (qfloorNat (img.w * stScale img)) (qfloorNat (img.h * stScale img))
  else img

/-- Body of the `try` block of `detect_striation_patterns` (lines 103-181):
median filter, gradient-direction histogram (absorbed into
`ops.dominantDirections`), Canny edges, probabilistic Hough line search,
then aggregation of segment count, mean length, density and the
parallelism score `1 / (1 + variance(angles)/100)`, the latter only when
more than one segment was found. -/
def detect_striation_patterns_body (ops : CVOps) (img : Image) :
    Except Unit StriationFeatures :=
  let g := stResized ops img
  let denoised := ops.medianBlur g
  let dom := ops.dominantDirections denoised
  let edges := ops.canny denoised
  (ops.houghLinesP edges).map (fun linesOpt =>
    match linesOpt with
    | none =>
      { num_striation_lines := 0
        dominant_directions := dom
        avg_line_length := 0
        striation_density := 0
        parallelism_score := 0 }
    | some lines =>
      let lengths := lines.map ops.segLength
      let angles := lines.map ops.segAngle
      if lines.isEmpty then
        { num_striation_lines := lines.length
          dominant_directions := dom
          avg_line_length := 0
          striation_density := 0
          parallelism_score := 0 }
      else
        { num_striation_lines := lines.length
          dominant_directions := dom
          avg_line_length := meanQ lengths
          striation_density := (lines.length : ℚ) / ((g.h : ℚ) * (g.w : ℚ) / 10000)
          parallelism_score :=
            if 1 < lines.length then 1 / (1 + varianceQ angles / 100) else 0 })

/-- `detect_striation_patterns` (lines 100-191): the `try`/`except` converts
any internal failure into the all-zero record. -/
def detect_striation_patterns (ops : CVOps) (img : Image) : StriationFeatures :=
  match detect_striation_patterns_body ops img with
  | .ok r => r
  | .error _ => zeroStriation

/-- Downscale factor of the LBP texture stage (lines 265-268), threshold
1000 px. -/
def lbpScale (img : Image) : ℚ :=
  if 1000 < img.h ∨ 1000 < img.w then
    min ((1000 : ℚ) / img.h) ((1000 : ℚ) / img.w)
  else 1

/-- The (optionally downscaled) raster the LBP is computed on
(lines 265-268). -/
def lbpResized (ops : CVOps) (img : Image) : Image :=
  if 1000 < img.h ∨ 1000 < img.w then
    ops.resize img (qfloorNat (img.w * lbpScale img)) (qfloorNat (img.h * lbpScale img))
  else img

/-- One entry of the 4-direction LBP array of `calculate_lbp_fast`
(lines 270-289, radius 1): output position `(i, j)` compares the four
axis neighbours of pixel `(i+1, j+1)` against it and packs the outcomes
into bits 1, 2, 4, 8 (up, right, down, left). -/
def lbpVal (img : Image) (i j : ℕ) : ℕ :=
  let c := img.pix (i + 1) (j + 1)
  (if c ≤ img.pix i (j + 1) then 1 else 0) +
  (if c ≤ img.pix (i + 1) (j + 2) then 2 else 0) +
  (if c ≤ img.pix (i + 2) (j + 1) then 4 else 0) +
  (if c ≤ img.pix (i + 1) j then 8 else 0)

/-- Index domain of the LBP array: `(h - 2r) × (w - 2r)` with radius 1
(line 272).  Faithful to the numpy shape for rasters with both dimensions
at least 2; for a dimension below 2 the allocation `np.zeros((h-2, w-2))`
raises in the source, which `calculate_lbp_fast` models with an explicit
guard, so this truncated-subtraction domain is never consulted there. -/
def lbpDomain (img : Image) : Finset (ℕ × ℕ) :=
  Finset.range (img.h - 2) ×ˢ Finset.range (img.w - 2)

/-- One bin of `np.histogram(lbp, bins=16, range=(0, 16))` (line 292):
every LBP value is an integer below 16, so bin `v` counts the positions
whose LBP value is exactly `v`. -/
def lbpHist (img : Image) (v : ℕ) : ℕ :=
  ((lbpDomain img).filter (fun p => lbpVal img p.1 p.2 = v)).card

/-- Total histogram mass `np.sum(lbp_hist)`. -/
def lbpHistSum (img : Image) : ℕ :=
  ∑ v ∈ Finset.range 16, lbpHist img v

/-- `lbp_uniformity` (line 293): `np.sum(hist**2) / np.sum(hist)**2` when
the mass is positive, else 0.  This is the value computed on rasters where
the LBP allocation succeeded (both dimensions at least 2); the failing
allocation is modelled by `calculate_lbp_fast`. -/
def lbp_uniformity (img : Image) : ℚ :=
  if 0 < lbpHistSum img then
    ((∑ v ∈ Finset.range 16, (lbpHist img v) ^ 2 : ℕ) : ℚ) / ((lbpHistSum img : ℚ)) ^ 2
  else 0

/-- The texture stage, `calculate_lbp_fast` at lines 262-293 together with
its use at lines 291-293: on the (optionally downscaled) raster the
allocation `np.zeros((h - 2*radius, w - 2*radius))` at line 272 raises
`ValueError` (negative dimensions) whenever a dimension is below 2, and
that exception escapes the stage; otherwise the LBP histogram uniformity
is computed (0 on an empty LBP array, as at exactly dimension 2). -/
def calculate_lbp_fast (ops : CVOps) (img : Image) : Except Unit ℚ :=
  if (lbpResized ops img).h < 2 ∨ (lbpResized ops img).w < 2 then .error ()
  else .ok (lbp_uniformity (lbpResized ops img))

/-- The errors raised by the pipeline, all instances of the single Python
class `FeatureExtractionError`; the constructor records which `raise` site
produced it. -/
inductive FExtractErr where
  | decodeError
  | fileNotFound
  | rawDecodeError
  | processingError
  deriving DecidableEq

/-- Combined feature record assembled at lines 296-303. -/
structure Features where
  hu_moments : List ℚ
  contour_area : ℚ
  contour_len : ℚ
  lbp_uniformity : ℚ
  firing_pin_marks : FiringPinFeatures
  striation_patterns : StriationFeatures
  deriving DecidableEq

/-- Decode phase of `calculate_ballistic_features` (lines 196-208):
`cv2.imdecode`, then the rawpy fallback when it returns `None`. -/
def decodePhase (ops : CVOps) (data : List ℕ) : Option Image :=
  match ops.imdecode data with
  | some img => some img
  | none => ops.rawpyDecode data

/-- Downscale factor of the dimension sanity bound (lines 211-218),
threshold 10000 px. -/
def normScale (img : Image) : ℚ :=
  min ((10000 : ℚ) / img.h) ((10000 : ℚ) / img.w)

/-- Dimension-bound phase (lines 211-218): above 10000 px on either axis
the image is area-resized to `(int(w*s), int(h*s))`. -/
def normalizePhase (ops : CVOps) (img : Image) : Image :=
  if 10000 < img.h ∨ 10000 < img.w then
    ops.resize img (qfloorNat (img.w * normScale img)) (qfloorNat (img.h * normScale img))
  else img

/-- Grayscale conversion (line 220) applied after the dimension bound. -/
def grayPhase (ops : CVOps) (img : Image) : Image :=
  ops.cvtColor (normalizePhase ops img)

/-- Binarization phase (lines 223-227): Gaussian blur then adaptive
threshold. -/
def threshPhase (ops : CVOps) (gray : Image) : Image :=
  ops.adaptiveThreshold (ops.gaussianBlur gray)

/-- `max(contours, key=cv2.contourArea)` (line 236): first maximal element
under strict comparison, `none` on an empty list. -/
def largestContour (ops : CVOps) (cs : List Contour) : Option Contour :=
  match cs with
  | [] => none
  | c :: rest =>
    some (rest.foldl (fun a b => if ops.contourArea a < ops.contourArea b then b else a) c)

/-- The masked threshold image of lines 237-240: binary mask of the chosen
contour drawn on a zero raster shaped like `gray`, AND-ed with `thresh`. -/
def maskedThresh (ops : CVOps) (gray thresh : Image) (c : Contour) : Image :=
  ops.bitwiseAnd thresh (ops.drawMask gray c)

/-- The raw Hu invariants of the masked threshold image
(lines 241-242): `cv2.HuMoments(cv2.moments(masked_thresh)).flatten()`. -/
def rawHuOf (ops : CVOps) (gray thresh : Image) (c : Contour) : Fin 7 → ℚ :=
  ops.huMoments (ops.moments (maskedThresh ops gray thresh c))

/-- The log-compression of lines 248-252:
`-sign(h) * log10(|h|)` when `|h| > 1e-9`, else 0.  `log10` is the caller
supplied model of the float `np.log10`. -/
def huTransform (log10 : ℚ → ℚ) (x : ℚ) : ℚ :=
  if 1 / 1000000000 < |x| then -(qsign x) * log10 |x| else 0

/-- `calculate_ballistic_features` (lines 193-309): decode with fallback,
dimension bound, grayscale, Hu-moment branch on the contour search result,
both detectors, LBP uniformity, and assembly of the feature record.  A
decode failure raises `FeatureExtractionError` (line 208); a failure of
the texture stage (the negative-dimension `ValueError` for a raster with a
dimension below 2) escapes to the catch-all at lines 307-309 and is
re-raised as `FeatureExtractionError` as well. -/
def calculate_ballistic_features (ops : CVOps) (data : List ℕ) :
    Except FExtractErr Features :=
  match decodePhase ops data with
  | none => .error .decodeError
  | some img0 =>
    let gray := grayPhase ops img0
    let thresh := threshPhase ops gray
    let contours := ops.findContours thresh
    let shape : List ℚ × ℚ × ℚ :=
      match largestContour ops contours with
      | none => (List.replicate 7 0, 0, 0)
      | some c =>
        (List.ofFn (fun i => huTransform ops.log10 (rawHuOf ops gray thresh c i)),
         ops.contourArea c, ops.arcLength c)
    match calculate_lbp_fast ops gray with
    | .error _ => .error .processingError
    | .ok u =>
      .ok
        { hu_moments := shape.1
          contour_area := shape.2.1
          contour_len := shape.2.2
          lbp_uniformity := u
          firing_pin_marks := detect_firing_pin_marks ops gray
          striation_patterns := detect_striation_patterns ops gray }

/-- `np.arctan2` on exact reals: the argument of the complex number
`x + y·i`, with range `(-π, π]` and `arctan2 0 0 = 0`, matching numpy. -/
noncomputable def arctan2 (y x : ℝ) : ℝ :=
  Complex.arg ⟨x, y⟩

/-- The direction fold of the striation detector (lines 122-125):
`direction = np.abs(np.arctan2(grad_y, grad_x))`. -/
noncomputable def foldDirection (gy gx : ℝ) : ℝ :=
  |arctan2 gy gx|

/-- Dictionary keys of the record returned by `detect_striation_patterns`
(lines 150-156 and 185-191): both the success and the failure path carry
exactly these five keys. -/
def striationDictKeys (_s : StriationFeatures) : List String :=
  ["num_striation_lines", "dominant_directions", "avg_line_length",
   "striation_density", "parallelism_score"]

/-- The command-line output formatter for striations (lines 484-493): it
consults the `patterns` key of the striation record (short-circuiting
before any value access when the key is absent) and otherwise emits
`(angle, length, strength)` triples. -/
def formatStriationPatterns (s : StriationFeatures)
    (patternsValue : StriationFeatures → List (List ℚ)) : List (ℚ × ℚ × ℚ) :=
  if ("patterns" ∈ striationDictKeys s) then
    let patterns := patternsValue s
    if ¬ patterns.isEmpty then
      (patterns.filter (fun p => 3 ≤ p.length)).map
        (fun p => (p.headI, p.tail.headI, p.tail.tail.headI))
    else []
  else []

/-! Concrete fixtures used by the witness and counterexample theorems. -/

/-- A small concrete raster. -/
def unitImage : Image :=
  { h := 4, w := 4, pix := fun _ _ => 0 }

/-- A concrete, fully computable collection of primitives. -/
def baseOps : CVOps where
  imdecode := fun _ => some unitImage
  rawpyDecode := fun _ => none
  imread := fun _ => some unitImage
  pilDecode := fun _ => none
  rawpyFile := fun _ => none
  imencodePNG := fun _ => [0]
  resize := fun img w h => { h := h, w := w, pix := img.pix }
  cvtColor := id
  gaussianBlur := id
  adaptiveThreshold := id
  findContours := fun _ => []
  contourArea := fun _ => 0
  arcLength := fun _ => 0
  drawMask := fun img _ => img
  bitwiseAnd := fun a _ => a
  moments := fun _ => []
  huMoments := fun _ _ => 0
  houghCircles := fun _ => .ok none
  circleMeanIntensity := fun _ _ => 0
  medianBlur := id
  dominantDirections := fun _ => []
  canny := id
  houghLinesP := fun _ => .ok none
  segLength := fun _ => 0
  segAngle := fun _ => 0
  log10 := fun _ => 0

/-- Primitives whose two Hough searches both fail internally. -/
def failOps : CVOps :=
  { baseOps with
    houghCircles := fun _ => .error ()
    houghLinesP := fun _ => .error () }

/-- Primitives for which no codec can decode the byte buffer. -/
def noDecodeOps : CVOps :=
  { baseOps with
    imdecode := fun _ => none
    rawpyDecode := fun _ => none }

/-- Claim C3: neither detector propagates an internal failure; each
converts a failing body into its all-zero result record. -/
theorem detector_failures_absorbed (ops : CVOps) (img : Image) :
    (∀ e : Unit, detect_firing_pin_marks_body ops img = .error e →
        detect_firing_pin_marks ops img = zeroFiringPin) ∧
    (∀ e : Unit, detect_striation_patterns_body ops img = .error e →
        detect_striation_patterns ops img = zeroStriation) := by
  constructor
  · intro e he
    simp [detect_firing_pin_marks, he]
  · intro e he
    simp [detect_striation_patterns, he]

/-- Witness for claim C3 at a concrete failing input. -/
theorem detector_failures_absorbed_witness :
    detect_firing_pin_marks failOps unitImage = zeroFiringPin ∧
    detect_striation_patterns failOps unitImage = zeroStriation :=
  ⟨(detector_failures_absorbed failOps unitImage).1 () rfl,
   (detector_failures_absorbed failOps unitImage).2 () rfl⟩

/-- Claim C5: when no codec decodes the buffer, the pipeline fails with the
decode instance of `FeatureExtractionError` and produces no feature
record. -/
theorem undecodable_raises_decode_error (ops : CVOps) (data : List ℕ)
    (h1 : ops.imdecode data = none) (h2 : ops.rawpyDecode data = none) :
    calculate_ballistic_features ops data = .error .decodeError := by
  simp [calculate_ballistic_features, decodePhase, h1, h2]

/-- Witness for claim C5 at a concrete undecodable buffer. -/
theorem undecodable_raises_decode_error_witness :
    calculate_ballistic_features noDecodeOps [1, 2, 3] = .error .decodeError :=
  undecodable_raises_decode_error noDecodeOps [1, 2, 3] rfl rfl

/-- Claim C10: the command-line formatter looks up a `patterns` key the
striation record never carries, so the formatted striation list is empty
for every input raster and every detector outcome. -/
theorem cli_striation_patterns_empty (ops : CVOps) (img : Image)
    (pv : StriationFeatures → List (List ℚ)) :
    formatStriationPatterns (detect_striation_patterns ops img) pv = [] := by
  have hk : "patterns" ∉ striationDictKeys (detect_striation_patterns ops img) := by
    unfold striationDictKeys
    decide
  unfold formatStriationPatterns
  rw [if_neg hk]

/-- Intermediate shape of the firing-pin detector when the circle search
succeeds with an explicit list of circles. -/
theorem detect_firing_pin_marks_of_circles (ops : CVOps) (img : Image)
    (circles : List Circle)
    (hcirc : ops.houghCircles (ops.gaussianBlur (fpResized ops img))
        = .ok (some circles)) :
    detect_firing_pin_marks ops img =
      { num_circular_marks := circles.length
        avg_mark_radius :=
          if (circles.map (fun c => (c.2.2 : ℚ) / fpScale img)).isEmpty then 0
          else meanQ (circles.map (fun c => (c.2.2 : ℚ) / fpScale img))
        mark_positions :=
          circles.map (fun c => ((c.1 : ℚ) / fpScale img, (c.2.1 : ℚ) / fpScale img))
        mark_intensities :=
          circles.map (fun c => ops.circleMeanIntensity (fpResized ops img) c) } := by
  simp only [detect_firing_pin_marks, detect_firing_pin_marks_body, hcirc, Except.map]

/-- Claim C9: on a downscaled raster, every reported mark position and every
radius entering the mean radius is the coordinate detected on the
downscaled raster divided by the scale factor. -/
theorem firing_pin_rescaling (ops : CVOps) (img : Image) (circles : List Circle)
    (hbig : 2000 < img.h ∨ 2000 < img.w)
    (hcirc : ops.houghCircles (ops.gaussianBlur (fpResized ops img))
        = .ok (some circles))
    (hne : circles ≠ []) :
    fpScale img = min ((2000 : ℚ) / img.h) ((2000 : ℚ) / img.w) ∧
    (detect_firing_pin_marks ops img).mark_positions
      = circles.map (fun c => ((c.1 : ℚ) / fpScale img, (c.2.1 : ℚ) / fpScale img)) ∧
    (detect_firing_pin_marks ops img).avg_mark_radius
      = meanQ (circles.map (fun c => (c.2.2 : ℚ) / fpScale img)) := by
  refine ⟨by simp [fpScale, hbig], ?_, ?_⟩
  · rw [detect_firing_pin_marks_of_circles ops img circles hcirc]
  · rw [detect_firing_pin_marks_of_circles ops img circles hcirc]
    have : (circles.map (fun c => (c.2.2 : ℚ) / fpScale img)).isEmpty = false := by
      simp [hne]
    simp [this]

/-- A 4000 by 2000 raster, above the firing-pin downscale threshold. -/
def tallImage : Image :=
  { h := 4000, w := 2000, pix := fun _ _ => 0 }

/-- Primitives whose circle search returns two concrete circles. -/
def circlesOps : CVOps :=
  { baseOps with
    houghCircles := fun _ => .ok (some [(4, 6, 2), (10, 20, 6)]) }

/-- Witness for claim C9 at a concrete downscaled input. -/
theorem firing_pin_rescaling_witness :
    fpScale tallImage = min ((2000 : ℚ) / tallImage.h) ((2000 : ℚ) / tallImage.w) ∧
    (detect_firing_pin_marks circlesOps tallImage).mark_positions
      = [(4, 6, 2), (10, 20, 6)].map
          (fun c : Circle => ((c.1 : ℚ) / fpScale tallImage, (c.2.1 : ℚ) / fpScale tallImage)) ∧
    (detect_firing_pin_marks circlesOps tallImage).avg_mark_radius
      = meanQ ([(4, 6, 2), (10, 20, 6)].map (fun c : Circle => (c.2.2 : ℚ) / fpScale tallImage)) :=
  firing_pin_rescaling circlesOps tallImage [(4, 6, 2), (10, 20, 6)]
    (by left; decide) rfl (by decide)

/-- Nonnegativity of the exact population variance. -/
theorem varianceQ_nonneg (l : List ℚ) : 0 ≤ varianceQ l := by
  unfold varianceQ
  apply div_nonneg
  · apply List.sum_nonneg
    intro x hx
    obtain ⟨a, -, rfl⟩ := List.mem_map.mp hx
    positivity
  · positivity

/-- Bounds of the parallelism formula for a nonnegative variance. -/
theorem parallelism_formula_bounds (v : ℚ) (hv : 0 ≤ v) :
    0 ≤ 1 / (1 + v / 100) ∧ 1 / (1 + v / 100) ≤ 1 := by
  have hpos : (0 : ℚ) < 1 + v / 100 := by positivity
  constructor
  · positivity
  · rw [div_le_one hpos]
    linarith

/-- Intermediate shape of the striation detector when the line search
succeeds with an explicit list of segments. -/
theorem detect_striation_patterns_of_lines (ops : CVOps) (img : Image)
    (lines : List Segment)
    (hlines : ops.houghLinesP (ops.canny (ops.medianBlur (stResized ops img)))
        = .ok (some lines))
    (hne : ¬ lines.isEmpty) :
    detect_striation_patterns ops img =
      { num_striation_lines := lines.length
        dominant_directions :=
          ops.dominantDirections (ops.medianBlur (stResized ops img))
        avg_line_length := meanQ (lines.map ops.segLength)
        striation_density :=
          (lines.length : ℚ)
            / (((stResized ops img).h : ℚ) * ((stResized ops img).w : ℚ) / 10000)
        parallelism_score :=
          if 1 < lines.length then 1 / (1 + varianceQ (lines.map ops.segAngle) / 100)
          else 0 } := by
  simp only [detect_striation_patterns, detect_striation_patterns_body, hlines,
    Except.map, hne, if_neg, Bool.false_eq_true, ite_false]

/-- Every possible parallelism score is zero or an instance of the
formula. -/
theorem parallelism_score_cases (ops : CVOps) (img : Image) :
    (detect_striation_patterns ops img).parallelism_score = 0 ∨
    ∃ l : List ℚ, (detect_striation_patterns ops img).parallelism_score
        = 1 / (1 + varianceQ l / 100) := by
  cases hl : ops.houghLinesP (ops.canny (ops.medianBlur (stResized ops img))) with
  | error e =>
    left
    simp [detect_striation_patterns, detect_striation_patterns_body, hl, Except.map,
      zeroStriation]
  | ok linesOpt =>
    cases linesOpt with
    | none =>
      left
      simp [detect_striation_patterns, detect_striation_patterns_body, hl, Except.map]
    | some lines =>
      by_cases hemp : lines.isEmpty
      · left
        simp [detect_striation_patterns, detect_striation_patterns_body, hl, Except.map,
          hemp]
      · rw [detect_striation_patterns_of_lines ops img lines hl hemp]
        by_cases hlen : 1 < lines.length
        · right
          exact ⟨lines.map ops.segAngle, by simp [hlen]⟩
        · left
          simp [hlen]

/-- Amended claim C6: when the probabilistic line search detects at least
two segments the reported score is exactly `1 / (1 + variance(angles)/100)`
over the detected segment angles; with zero or one segments (or an
internal failure) the score is 0; and for every raster the score lies in
`[0, 1]`. -/
theorem parallelism_score_amended :
    (∀ (ops : CVOps) (img : Image) (lines : List Segment),
        ops.houghLinesP (ops.canny (ops.medianBlur (stResized ops img)))
            = .ok (some lines) →
        1 < lines.length →
        (detect_striation_patterns ops img).parallelism_score
          = 1 / (1 + varianceQ (lines.map ops.segAngle) / 100)) ∧
    (∀ (ops : CVOps) (img : Image) (lines : List Segment),
        ops.houghLinesP (ops.canny (ops.medianBlur (stResized ops img)))
            = .ok (some lines) →
        lines.length ≤ 1 →
        (detect_striation_patterns ops img).parallelism_score = 0) ∧
    (∀ (ops : CVOps) (img : Image),
        0 ≤ (detect_striation_patterns ops img).parallelism_score ∧
        (detect_striation_patterns ops img).parallelism_score ≤ 1) := by
  refine ⟨?_, ?_, ?_⟩
  · intro ops img lines hl hlen
    have hemp : ¬ lines.isEmpty := by
      rw [List.isEmpty_iff]
      intro h
      rw [h] at hlen
      simp at hlen
    rw [detect_striation_patterns_of_lines ops img lines hl hemp]
    simp [hlen]
  · intro ops img lines hl hlen
    by_cases hemp : lines.isEmpty
    · simp [detect_striation_patterns, detect_striation_patterns_body, hl, Except.map,
        hemp]
    · rw [detect_striation_patterns_of_lines ops img lines hl hemp]
      have : ¬ 1 < lines.length := by omega
      simp [this]
  · intro ops img
    rcases parallelism_score_cases ops img with h0 | ⟨l, hl⟩
    · rw [h0]
      norm_num
    · rw [hl]
      exact parallelism_formula_bounds (varianceQ l) (varianceQ_nonneg l)

/-- Primitives whose line search returns a single segment. -/
def oneSegOps : CVOps :=
  { baseOps with
    houghLinesP := fun _ => .ok (some [((0 : ℤ), (0 : ℤ), (10 : ℤ), (0 : ℤ))]) }

/-- Counterexample to claim C6 as stated: with exactly one detected segment
the code reports score 0, while the claimed formula evaluates to 1. -/
theorem single_segment_score_mismatch :
    (detect_striation_patterns oneSegOps unitImage).num_striation_lines = 1 ∧
    (detect_striation_patterns oneSegOps unitImage).parallelism_score ≠
      1 / (1 + varianceQ
        (([((0 : ℤ), (0 : ℤ), (10 : ℤ), (0 : ℤ))] : List Segment).map oneSegOps.segAngle)
        / 100) := by
  have hdet := detect_striation_patterns_of_lines oneSegOps unitImage
    [((0 : ℤ), (0 : ℤ), (10 : ℤ), (0 : ℤ))] rfl (by decide)
  have hv : varianceQ
      (([((0 : ℤ), (0 : ℤ), (10 : ℤ), (0 : ℤ))] : List Segment).map oneSegOps.segAngle)
      = 0 := by
    simp [varianceQ, meanQ, oneSegOps, baseOps]
  constructor
  · rw [hdet]
    rfl
  · rw [hdet, hv]
    norm_num

/-- Primitives whose line search returns two segments of distinct angles. -/
def twoSegOps : CVOps :=
  { baseOps with
    houghLinesP := fun _ =>
      .ok (some [((0 : ℤ), (0 : ℤ), (10 : ℤ), (0 : ℤ)),
                 ((0 : ℤ), (0 : ℤ), (0 : ℤ), (10 : ℤ))])
    segAngle := fun s => (s.2.2.2 : ℚ) }

/-- Witness for the amended claim C6 at a concrete two-segment input. -/
theorem parallelism_score_amended_witness :
    (detect_striation_patterns twoSegOps unitImage).parallelism_score
      = 1 / (1 + varianceQ
          (([((0 : ℤ), (0 : ℤ), (10 : ℤ), (0 : ℤ)),
             ((0 : ℤ), (0 : ℤ), (0 : ℤ), (10 : ℤ))] : List Segment).map twoSegOps.segAngle)
          / 100) ∧
    0 ≤ (detect_striation_patterns twoSegOps unitImage).parallelism_score :=
  ⟨parallelism_score_amended.1 twoSegOps unitImage _ rfl (by decide),
   (parallelism_score_amended.2.2 twoSegOps unitImage).1⟩

/-- Counterexample to claim C7 as stated: the fold `|arctan2(gy, gx)|`
produces the value π itself (at a gradient pointing along the negative
x-axis), so the folded directions do not lie in the half-open interval
`[0, π)`. -/
theorem direction_fold_attains_pi :
    foldDirection 0 (-1) = Real.pi ∧ ¬ foldDirection 0 (-1) < Real.pi := by
  have harg : foldDirection 0 (-1) = Real.pi := by
    unfold foldDirection arctan2
    have hmk : (⟨-1, 0⟩ : ℂ) = ((-1 : ℝ) : ℂ) := by
      apply Complex.ext
      · simp
      · simp
    rw [hmk, Complex.arg_ofReal_of_neg (by norm_num)]
    exact abs_of_pos Real.pi_pos
  exact ⟨harg, by rw [harg]; exact lt_irrefl _⟩

/-- Amended claim C7: every gradient direction value entering the direction
histogram lies in the closed interval `[0, π]`; the endpoint π is attained,
so the interval cannot be sharpened to `[0, π)`. -/
theorem direction_fold_range_closed (gy gx : ℝ) :
    0 ≤ foldDirection gy gx ∧ foldDirection gy gx ≤ Real.pi := by
  unfold foldDirection arctan2
  exact ⟨abs_nonneg _, abs_le.mpr ⟨(Complex.neg_pi_lt_arg _).le, Complex.arg_le_pi _⟩⟩

attribute [irreducible] lbp_uniformity

end Ballistics
